import Mathlib

/-!
Verification of the pthread mutex wrapper (`src/sys/pthread.rs`) against its
natural-language specification.

The Rust module is a thin wrapper over native pthread calls.  We embed the
wrapper logic shallowly: each wrapper function becomes a pure Lean function of
the native call's return code (pthread functions return 0 on success and an
error number on failure).  The native layer itself (libc) and the crate's
`Errno::result` helper (which lives outside the provided sources) are modelled
from the specification, with doc comments marking every such modelled
definition.
-/

namespace Pthread

/-! ### Native constants (Linux values of the libc constants used by the source) -/

def PTHREAD_PROCESS_PRIVATE : Int := 0
def PTHREAD_PROCESS_SHARED : Int := 1
def PTHREAD_MUTEX_STALLED : Int := 0
def PTHREAD_MUTEX_ROBUST : Int := 1
def PTHREAD_PRIO_NONE : Int := 0
def PTHREAD_PRIO_INHERIT : Int := 1
def PTHREAD_PRIO_PROTECT : Int := 2

/-- Linux errno value `EBUSY` (the would-block return of `pthread_mutex_trylock`). -/
def EBUSY : Int := 16

/-- Linux errno value `EOWNERDEAD` (robust mutex: previous holder died). -/
def EOWNERDEAD : Int := 130

/-- Linux errno value `EINVAL`. -/
def EINVAL : Int := 22

/-- Linux errno value `ENOMEM`. -/
def ENOMEM : Int := 12

/-! ### Error plumbing -/

/-- Modelled from the spec: `Errno::result` (crate `errno` module, not among the
provided sources).  Per the spec, "Integer error codes surfaced from the
underlying OS call layer" are translated so that "every native call site maps
directly to a result" with failures "surfaced with the underlying code".
A native return of 0 is success; any nonzero return is surfaced as an error
carrying the native code. -/
def Errno.result (ret : Int) : Except Int Int :=
  if ret = 0 then Except.ok ret else Except.error ret

/-- Outcome of a Rust `unwrap()` / `debug_assert` context: either the value, or
a panic that terminates the process. -/
inductive Unwrapped (α : Type) where
  | value : α → Unwrapped α
  | panicked : Unwrapped α
deriving DecidableEq, Repr

/-- `Result::unwrap()`: the value on `Ok`, a process-terminating panic on `Err`. -/
def unwrapExcept {ε α : Type} : Except ε α → Unwrapped α
  | Except.ok a => Unwrapped.value a
  | Except.error _ => Unwrapped.panicked

/-! ### Protocol enumeration (from the source, lines 50-72) -/

/-- Mutex protocol, `enum Protocol` from the source: `None`, `Inherit`,
`Protect`, with `repr(i32)` discriminants equal to the libc constants. -/
inductive Protocol where
  | None : Protocol
  | Inherit : Protocol
  | Protect : Protocol
deriving DecidableEq, Repr

/-- The `repr(i32)` value of a `Protocol` variant (`p as i32` in the source):
each variant's discriminant is the corresponding libc constant. -/
def Protocol.toI32 : Protocol → Int
  | Protocol.None => PTHREAD_PRIO_NONE
  | Protocol.Inherit => PTHREAD_PRIO_INHERIT
  | Protocol.Protect => PTHREAD_PRIO_PROTECT

/-- `impl From<i32> for Protocol` from the source: the three libc constants map
to the three variants and every other input hits the `unreachable!()` arm,
which we embed as `Option.none` (a panic, no value is ever produced). -/
def Protocol.fromI32 (x : Int) : Option Protocol :=
  if x = PTHREAD_PRIO_NONE then some Protocol.None
  else if x = PTHREAD_PRIO_INHERIT then some Protocol.Inherit
  else if x = PTHREAD_PRIO_PROTECT then some Protocol.Protect
  else Option.none

/-! ### Native attribute state (modelled) and the `MutexAttr` wrapper (source lines 74-154) -/

/-- Modelled from the spec: the native `pthread_mutexattr_t` structure.  Its
logical fields per the spec data model are `shared`, `robust`, `protocol`,
stored here as the native integer encodings the setters write. -/
structure PthreadMutexattrT where
  pshared : Int
  robust : Int
  protocol : Int
deriving DecidableEq, Repr

/-- Modelled from the spec: `libc::pthread_mutexattr_init`.  `ret` is the
native return code (0 on success; nonzero is the rare resource-exhaustion
failure).  On success the attribute holds the platform defaults, which the
spec states are process-private, non-robust, protocol none on the primary
target platform. -/
def pthread_mutexattr_init (ret : Int) : PthreadMutexattrT × Int :=
  ({ pshared := PTHREAD_PROCESS_PRIVATE,
     robust := PTHREAD_MUTEX_STALLED,
     protocol := PTHREAD_PRIO_NONE }, ret)

/-- Modelled from the spec: `libc::pthread_mutexattr_setpshared` stores the
requested mode and succeeds (the primary target platform supports both
modes). -/
def pthread_mutexattr_setpshared (a : PthreadMutexattrT) (v : Int) :
    PthreadMutexattrT × Int :=
  ({ a with pshared := v }, 0)

/-- Modelled from the spec: `libc::pthread_mutexattr_getpshared` writes the
stored mode to the out-parameter and succeeds. -/
def pthread_mutexattr_getpshared (a : PthreadMutexattrT) : Int × Int :=
  (a.pshared, 0)

/-- Modelled from the spec: `libc::pthread_mutexattr_setrobust` stores the
requested mode and succeeds on the primary target platform. -/
def pthread_mutexattr_setrobust (a : PthreadMutexattrT) (v : Int) :
    PthreadMutexattrT × Int :=
  ({ a with robust := v }, 0)

/-- Modelled from the spec: `libc::pthread_mutexattr_getrobust` writes the
stored mode to the out-parameter and succeeds. -/
def pthread_mutexattr_getrobust (a : PthreadMutexattrT) : Int × Int :=
  (a.robust, 0)

/-- Modelled from the spec: `libc::pthread_mutexattr_setprotocol` stores the
requested protocol and succeeds (all three protocols are supported on the
primary target platform). -/
def pthread_mutexattr_setprotocol (a : PthreadMutexattrT) (v : Int) :
    PthreadMutexattrT × Int :=
  ({ a with protocol := v }, 0)

/-- Modelled from the spec: `libc::pthread_mutexattr_getprotocol` writes the
stored protocol to the out-parameter and succeeds. -/
def pthread_mutexattr_getprotocol (a : PthreadMutexattrT) : Int × Int :=
  (a.protocol, 0)

namespace MutexAttr

/-- `MutexAttr::new` from the source: runs the native attribute initializer
(whose return code `ret` parameterizes the embedding) through `Errno::result`,
returning the initialized native state on success. -/
def new (ret : Int) : Except Int PthreadMutexattrT :=
  let (a, r) := pthread_mutexattr_init ret
  (Errno.result r).map (fun _ => a)

/-- `MutexAttr::get_shared` from the source: query the native mode and report
whether it equals `PTHREAD_PROCESS_SHARED`. -/
def get_shared (a : PthreadMutexattrT) : Except Int Bool :=
  let (out, r) := pthread_mutexattr_getpshared a
  (Errno.result r).map (fun _ => out == PTHREAD_PROCESS_SHARED)

/-- `MutexAttr::set_shared` from the source: encode the boolean as
`PTHREAD_PROCESS_SHARED` / `PTHREAD_PROCESS_PRIVATE` and store it natively;
returns the updated native state on success. -/
def set_shared (a : PthreadMutexattrT) (sh : Bool) : Except Int PthreadMutexattrT :=
  let v := if sh then PTHREAD_PROCESS_SHARED else PTHREAD_PROCESS_PRIVATE
  let (a2, r) := pthread_mutexattr_setpshared a v
  (Errno.result r).map (fun _ => a2)

/-- `MutexAttr::get_robust` from the source: query the native mode and report
whether it equals `PTHREAD_MUTEX_ROBUST`. -/
def get_robust (a : PthreadMutexattrT) : Except Int Bool :=
  let (out, r) := pthread_mutexattr_getrobust a
  (Errno.result r).map (fun _ => out == PTHREAD_MUTEX_ROBUST)

/-- `MutexAttr::set_robust` from the source: encode the boolean as
`PTHREAD_MUTEX_ROBUST` / `PTHREAD_MUTEX_STALLED` and store it natively. -/
def set_robust (a : PthreadMutexattrT) (ro : Bool) : Except Int PthreadMutexattrT :=
  let v := if ro then PTHREAD_MUTEX_ROBUST else PTHREAD_MUTEX_STALLED
  let (a2, r) := pthread_mutexattr_setrobust a v
  (Errno.result r).map (fun _ => a2)

/-- `MutexAttr::get_protocol` from the source: query the native protocol and
decode it with `Protocol::from` (whose `unreachable!()` arm is the
`Option.none` case of `Protocol.fromI32`). -/
def get_protocol (a : PthreadMutexattrT) : Except Int (Option Protocol) :=
  let (out, r) := pthread_mutexattr_getprotocol a
  (Errno.result r).map (fun _ => Protocol.fromI32 out)

/-- `MutexAttr::set_protocol` from the source: store `protocol as i32`
natively. -/
def set_protocol (a : PthreadMutexattrT) (p : Protocol) : Except Int PthreadMutexattrT :=
  let (a2, r) := pthread_mutexattr_setprotocol a p.toI32
  (Errno.result r).map (fun _ => a2)

/-- `impl Default for MutexAttr` from the source: `Self::new().unwrap()`.  The
`debug_assert_eq!(mutex_attr.get_shared(), Ok(true))` that follows is active
only in debug builds; its asserted condition is embedded separately as
`MutexAttr.default_assert_holds`. -/
def defaultAttr (ret : Int) : Unwrapped PthreadMutexattrT :=
  unwrapExcept (new ret)

/-- The condition asserted by the `debug_assert_eq!` in
`impl Default for MutexAttr`: `mutex_attr.get_shared() == Ok(true)`. -/
def default_assert_holds (a : PthreadMutexattrT) : Prop :=
  get_shared a = Except.ok true

/-- `impl Drop for MutexAttr` from the source: run the native destroy call
(return code `ret`) through `Errno::result` and `unwrap()` the result, so a
native failure becomes a process-terminating panic rather than a returned
error. -/
def drop (ret : Int) : Unwrapped Unit :=
  unwrapExcept ((Errno.result ret).map (fun _ => ()))

end MutexAttr

/-! ### Native mutex state (modelled) and the `Mutex` wrapper (source lines 244-319) -/

/-- Modelled from the spec: the native `pthread_mutex_t` lock state.  The spec
describes it as the platform's raw lock structure whose configuration is
copied from the attribute at initialization; we carry the lock bit and the
copied attribute fields. -/
structure PthreadMutexT where
  locked : Bool
  pshared : Int
  robust : Int
  protocol : Int
deriving DecidableEq, Repr

/-- Modelled from the spec: `libc::pthread_mutex_init`.  `ret` is the native
return code (0 on success).  The attribute's value is copied into the native
lock state (null attribute means platform defaults: process-private,
non-robust, protocol none) and the mutex starts unlocked. -/
def pthread_mutex_init (attr : Option PthreadMutexattrT) (ret : Int) :
    PthreadMutexT × Int :=
  match attr with
  | some a => ({ locked := false, pshared := a.pshared,
                 robust := a.robust, protocol := a.protocol }, ret)
  | none => ({ locked := false, pshared := PTHREAD_PROCESS_PRIVATE,
               robust := PTHREAD_MUTEX_STALLED,
               protocol := PTHREAD_PRIO_NONE }, ret)

/-- Modelled from the spec: `libc::pthread_mutex_trylock` — acquires the lock
and returns 0 when the mutex is unlocked, returns `EBUSY` without blocking
when it is already held. -/
def pthread_mutex_trylock (m : PthreadMutexT) : PthreadMutexT × Int :=
  if m.locked then (m, EBUSY) else ({ m with locked := true }, 0)

/-- Modelled from the spec: `libc::pthread_mutex_unlock` on the default
(non-error-checking) mutex type — releases the lock and returns 0, also when
the mutex was not locked ("Unlocking an already-unlocked, non-error-checking
mutex type may return success even though no lock was held"). -/
def pthread_mutex_unlock (m : PthreadMutexT) : PthreadMutexT × Int :=
  ({ m with locked := false }, 0)

/-- Lifecycle of an attribute object after it has been passed by value to a
mutex initialization call: the native value it held at the call, and whether
its `Drop` (native destroy) has run. -/
structure AttrLifecycle where
  state : PthreadMutexattrT
  destroyed : Bool
deriving DecidableEq, Repr

namespace Mutex

/-- `Mutex::init` from the source.  The attribute is received by value
(`attr: Option<MutexAttr>`): the match binds it with `Some(mut x)` and hands
`&mut x.0` to the native call, so when the function returns `x` goes out of
scope and its `Drop` runs `pthread_mutexattr_destroy`.  The embedding returns
the wrapper result (the initialized native lock state on success) together
with the attribute's lifecycle after the call. -/
def init (attr : Option PthreadMutexattrT) (ret : Int) :
    Except Int PthreadMutexT × Option AttrLifecycle :=
  let (m, r) := pthread_mutex_init attr ret
  let attrAfter := attr.map (fun a => { state := a, destroyed := true })
  ((Errno.result r).map (fun _ => m), attrAfter)

/-- `Mutex::new` from the source: identical native call on fresh storage, with
the same by-value attribute handling (the moved attribute is dropped when the
call returns). -/
def new (attr : Option PthreadMutexattrT) (ret : Int) :
    Except Int PthreadMutexT × Option AttrLifecycle :=
  let (m, r) := pthread_mutex_init attr ret
  let attrAfter := attr.map (fun a => { state := a, destroyed := true })
  ((Errno.result r).map (fun _ => m), attrAfter)

/-- The `Result` mapping performed by `Mutex::lock` in the source:
`Errno::result(native_return).map(drop)`. -/
def lockResult (ret : Int) : Except Int Unit :=
  (Errno.result ret).map (fun _ => ())

/-- The `Result` mapping performed by `Mutex::try_lock` in the source:
`Ok(_) => Ok(true)`, `Err(Errno::EBUSY) => Ok(false)`, `Err(err) => Err(err)`. -/
def tryLockResult (ret : Int) : Except Int Bool :=
  match Errno.result ret with
  | Except.ok _ => Except.ok true
  | Except.error e => if e = EBUSY then Except.ok false else Except.error e

/-- The `Result` mapping performed by `Mutex::unlock` in the source:
`Errno::result(native_return).map(drop)`. -/
def unlockResult (ret : Int) : Except Int Unit :=
  (Errno.result ret).map (fun _ => ())

/-- `Mutex::try_lock` acting on the modelled native state. -/
def try_lock (m : PthreadMutexT) : Except Int Bool × PthreadMutexT :=
  let (m2, r) := pthread_mutex_trylock m
  (tryLockResult r, m2)

/-- `Mutex::unlock` acting on the modelled native state. -/
def unlock (m : PthreadMutexT) : Except Int Unit × PthreadMutexT :=
  let (m2, r) := pthread_mutex_unlock m
  (unlockResult r, m2)

/-- `impl Default for Mutex` from the source: `Self::new(None).unwrap()`. -/
def defaultMutex (ret : Int) : Unwrapped PthreadMutexT :=
  unwrapExcept (new none ret).1

/-- `impl Drop for Mutex` from the source: run the native destroy call (return
code `ret`) through `Errno::result` and `unwrap()` the result, so a native
failure becomes a process-terminating panic rather than a returned error. -/
def drop (ret : Int) : Unwrapped Unit :=
  unwrapExcept ((Errno.result ret).map (fun _ => ()))

end Mutex

/-! ### Theorems for the claims -/

/-- The native attribute state produced by a successful `pthread_mutexattr_init`
(the platform defaults: process-private, non-robust, protocol none). -/
def defaultNativeAttr : PthreadMutexattrT :=
  { pshared := PTHREAD_PROCESS_PRIVATE,
    robust := PTHREAD_MUTEX_STALLED,
    protocol := PTHREAD_PRIO_NONE }

/-- The native lock state produced by a successful `pthread_mutex_init` with a
null attribute (the default mutex): unlocked, process-private, non-robust,
protocol none. -/
def defaultNativeMutex : PthreadMutexT :=
  { locked := false,
    pshared := PTHREAD_PROCESS_PRIVATE,
    robust := PTHREAD_MUTEX_STALLED,
    protocol := PTHREAD_PRIO_NONE }

/-- Claim C1: `MutexAttr::default()` never calls `set_shared(true)`: it is
`new().unwrap()` on the platform defaults, which are process-private, so the
successfully default-constructed attribute reports `get_shared() = Ok(false)`,
not `Ok(true)`, and the condition of the code's own
`debug_assert_eq!(mutex_attr.get_shared(), Ok(true))` is false on it. -/
theorem C1_default_attr_is_private :
    MutexAttr.defaultAttr 0 = Unwrapped.value defaultNativeAttr ∧
    MutexAttr.get_shared defaultNativeAttr = Except.ok false ∧
    ¬ MutexAttr.default_assert_holds defaultNativeAttr := by
  refine ⟨rfl, rfl, ?_⟩
  intro h
  simp only [MutexAttr.default_assert_holds] at h
  exact Bool.noConfusion (Except.ok.inj h)

/-- Claim C2, counterexample: at the concrete native return `EOWNERDEAD`
(robust mutex whose previous holder died), `Mutex::lock` does not succeed at
all, let alone with a distinguished success variant: it returns the plain
error carrying the raw native code. -/
theorem C2_counterexample :
    Mutex.lockResult EOWNERDEAD = Except.error EOWNERDEAD ∧
    Mutex.lockResult EOWNERDEAD ≠ Except.ok () := by
  refine ⟨rfl, ?_⟩
  intro h
  exact Except.noConfusion h

/-- Claim C2, amended: `Mutex::lock` maps every nonzero native return code,
including `EOWNERDEAD`, to `Err` carrying that raw code; there is no
distinguished owner-died success variant (the success payload is unit). -/
theorem C2_owner_died_is_plain_error (ret : Int) (h : ret ≠ 0) :
    Mutex.lockResult ret = Except.error ret := by
  simp [Mutex.lockResult, Errno.result, h, Except.map]

/-- Witness for C2 amended at the concrete owner-died code. -/
theorem C2_owner_died_is_plain_error_witness :
    EOWNERDEAD ≠ (0 : Int) ∧ Mutex.lockResult EOWNERDEAD = Except.error EOWNERDEAD :=
  ⟨by decide, C2_owner_died_is_plain_error EOWNERDEAD (by decide)⟩

/-- Claim C3, counterexample: at a concrete attribute (process-shared, as in
the doctest's cross-process path), passing it to `Mutex::init` leaves it
destroyed — its `Drop` (native destroy) runs when the call returns because
the attribute is moved into the call — so it does not remain usable. -/
theorem C3_counterexample :
    (Mutex.init (some { pshared := PTHREAD_PROCESS_SHARED,
                        robust := PTHREAD_MUTEX_STALLED,
                        protocol := PTHREAD_PRIO_NONE }) 0).2 =
      some { state := { pshared := PTHREAD_PROCESS_SHARED,
                        robust := PTHREAD_MUTEX_STALLED,
                        protocol := PTHREAD_PRIO_NONE },
             destroyed := true } ∧
    (Mutex.init (some { pshared := PTHREAD_PROCESS_SHARED,
                        robust := PTHREAD_MUTEX_STALLED,
                        protocol := PTHREAD_PRIO_NONE }) 0).2 ≠
      some { state := { pshared := PTHREAD_PROCESS_SHARED,
                        robust := PTHREAD_MUTEX_STALLED,
                        protocol := PTHREAD_PRIO_NONE },
             destroyed := false } := by
  refine ⟨rfl, ?_⟩
  intro h
  exact Bool.noConfusion (congrArg AttrLifecycle.destroyed (Option.some.inj h))

/-- Claim C3, amended: when an attribute is passed to `Mutex::new` or
`Mutex::init`, its value is copied into the native lock state, but the
attribute object itself is consumed by the call: it is moved in and dropped
(natively destroyed) when the call returns, so it cannot be reused to
initialize other mutexes. -/
theorem C3_attr_copied_and_consumed (a : PthreadMutexattrT) :
    (Mutex.init (some a) 0).1 =
      Except.ok { locked := false, pshared := a.pshared,
                  robust := a.robust, protocol := a.protocol } ∧
    (Mutex.init (some a) 0).2 = some { state := a, destroyed := true } ∧
    (Mutex.new (some a) 0).1 =
      Except.ok { locked := false, pshared := a.pshared,
                  robust := a.robust, protocol := a.protocol } ∧
    (Mutex.new (some a) 0).2 = some { state := a, destroyed := true } :=
  ⟨rfl, rfl, rfl, rfl⟩

/-- Claim C4: `Mutex::try_lock` returns `Ok(true)` when the lock is acquired
(mutex unlocked: it acquires and reports true), `Ok(false)` when the mutex is
already held (the native `EBUSY` would-block return is folded into the
boolean, never raised as an error), and `Err` carrying the raw native code
for any other native failure. -/
theorem C4_try_lock_mapping (m : PthreadMutexT) (ret : Int) :
    (m.locked = false →
      (Mutex.try_lock m).1 = Except.ok true ∧ (Mutex.try_lock m).2.locked = true) ∧
    (m.locked = true → (Mutex.try_lock m).1 = Except.ok false ∧ (Mutex.try_lock m).2 = m) ∧
    (ret ≠ 0 → ret ≠ EBUSY → Mutex.tryLockResult ret = Except.error ret) := by
  refine ⟨?_, ?_, ?_⟩
  · intro h
    simp [Mutex.try_lock, pthread_mutex_trylock, h, Mutex.tryLockResult, Errno.result]
  · intro h
    simp [Mutex.try_lock, pthread_mutex_trylock, h, Mutex.tryLockResult, Errno.result, EBUSY]
  · intro h0 hb
    simp [Mutex.tryLockResult, Errno.result, h0, hb]

/-- Witness for C4 at a concrete unlocked mutex, a concrete locked mutex being
covered by the same instantiation, and the concrete native code `EINVAL`. -/
theorem C4_try_lock_mapping_witness :
    defaultNativeMutex.locked = false ∧
    (Mutex.try_lock defaultNativeMutex).1 = Except.ok true ∧
    EINVAL ≠ (0 : Int) ∧ EINVAL ≠ EBUSY ∧
    Mutex.tryLockResult EINVAL = Except.error EINVAL :=
  ⟨rfl,
   ((C4_try_lock_mapping defaultNativeMutex EINVAL).1 rfl).1,
   by decide, by decide,
   (C4_try_lock_mapping defaultNativeMutex EINVAL).2.2 (by decide) (by decide)⟩

/-- Claim C5: attribute round-trip — for every attribute state and every value
of each logical field (`shared : bool`, `robust : bool`,
`protocol ∈ {None, Inherit, Protect}`, all supported on the primary target
platform), the setter succeeds and the getter then returns exactly the value
that was set (for `get_protocol`, decoding never reaches the `unreachable!()`
arm, so it yields the set variant). -/
theorem C5_attr_roundtrip (a : PthreadMutexattrT) (b r : Bool) (p : Protocol) :
    (∃ a2, MutexAttr.set_shared a b = Except.ok a2 ∧
           MutexAttr.get_shared a2 = Except.ok b) ∧
    (∃ a2, MutexAttr.set_robust a r = Except.ok a2 ∧
           MutexAttr.get_robust a2 = Except.ok r) ∧
    (∃ a2, MutexAttr.set_protocol a p = Except.ok a2 ∧
           MutexAttr.get_protocol a2 = Except.ok (some p)) := by
  refine ⟨⟨_, rfl, ?_⟩, ⟨_, rfl, ?_⟩, ⟨_, rfl, ?_⟩⟩
  · cases b <;> rfl
  · cases r <;> rfl
  · cases p <;> rfl

/-- Claim C6: the `Protocol` enumeration round-trips losslessly through its
native integer encoding — `Protocol::from(p as i32)` yields `p` (and in
particular never reaches the `unreachable!()` arm). -/
theorem C6_protocol_roundtrip (p : Protocol) :
    Protocol.fromI32 p.toI32 = some p := by
  cases p <;> rfl

/-- Claim C7: every successfully default-constructed mutex
(`Mutex::default()`, i.e. `new(None).unwrap()`) starts unlocked, so `unlock()`
immediately after construction returns `Ok(())` and `try_lock()` returns
`Ok(true)`. -/
theorem C7_fresh_default_mutex (ret : Int) (m : PthreadMutexT)
    (h : Mutex.defaultMutex ret = Unwrapped.value m) :
    (Mutex.unlock m).1 = Except.ok () ∧ (Mutex.try_lock m).1 = Except.ok true := by
  by_cases h0 : ret = 0
  · subst h0
    have hm : defaultNativeMutex = m := Unwrapped.value.inj h
    subst hm
    exact ⟨rfl, rfl⟩
  · exfalso
    simp [Mutex.defaultMutex, Mutex.new, pthread_mutex_init, Errno.result, h0,
      unwrapExcept, Except.map] at h

/-- Witness for C7 at the concrete successful construction
`Mutex::default()` with native return 0. -/
theorem C7_fresh_default_mutex_witness :
    Mutex.defaultMutex 0 = Unwrapped.value defaultNativeMutex ∧
    (Mutex.unlock defaultNativeMutex).1 = Except.ok () ∧
    (Mutex.try_lock defaultNativeMutex).1 = Except.ok true :=
  ⟨rfl, C7_fresh_default_mutex 0 defaultNativeMutex rfl⟩

/-- Claim C8: when the native destroy call fails during `Drop` of a
`MutexAttr` or a `Mutex`, the failure is not returned to any caller (the
`Unwrapped` outcome has no error channel): the `unwrap()` in both `Drop`
implementations turns it into a process-terminating panic. -/
theorem C8_drop_panics_on_failure (ret : Int) (h : ret ≠ 0) :
    MutexAttr.drop ret = Unwrapped.panicked ∧ Mutex.drop ret = Unwrapped.panicked := by
  constructor <;> simp [MutexAttr.drop, Mutex.drop, Errno.result, h, unwrapExcept, Except.map]

/-- Witness for C8 at the concrete native failure `EBUSY` (destroying a
locked mutex). -/
theorem C8_drop_panics_on_failure_witness :
    EBUSY ≠ (0 : Int) ∧
    MutexAttr.drop EBUSY = Unwrapped.panicked ∧
    Mutex.drop EBUSY = Unwrapped.panicked :=
  ⟨by decide, C8_drop_panics_on_failure EBUSY (by decide)⟩

/-- Claim C9: `From<i32> for Protocol` is not total — each of the three native
protocol constants maps to its variant, and every other integer input reaches
the `unreachable!()` arm (no variant is produced). -/
theorem C9_fromI32_partiality (x : Int) :
    Protocol.fromI32 PTHREAD_PRIO_NONE = some Protocol.None ∧
    Protocol.fromI32 PTHREAD_PRIO_INHERIT = some Protocol.Inherit ∧
    Protocol.fromI32 PTHREAD_PRIO_PROTECT = some Protocol.Protect ∧
    (x ≠ PTHREAD_PRIO_NONE → x ≠ PTHREAD_PRIO_INHERIT → x ≠ PTHREAD_PRIO_PROTECT →
      Protocol.fromI32 x = Option.none) := by
  refine ⟨rfl, rfl, rfl, ?_⟩
  intro h0 h1 h2
  unfold Protocol.fromI32
  rw [if_neg h0, if_neg h1, if_neg h2]

/-- Witness for C9 at the concrete out-of-range input 5. -/
theorem C9_fromI32_partiality_witness :
    (5 : Int) ≠ PTHREAD_PRIO_NONE ∧ (5 : Int) ≠ PTHREAD_PRIO_INHERIT ∧
    (5 : Int) ≠ PTHREAD_PRIO_PROTECT ∧ Protocol.fromI32 5 = Option.none :=
  ⟨by decide, by decide, by decide,
   (C9_fromI32_partiality 5).2.2.2 (by decide) (by decide) (by decide)⟩

/-- Claim C10: when native initialization fails (nonzero native return), the
`Default` constructors of both `MutexAttr` and `Mutex` panic via `unwrap()`
instead of returning an error, while the `Result`-returning constructors
(`MutexAttr::new`, `Mutex::new`) surface the failure to the caller as `Err`
carrying the native code. -/
theorem C10_default_panics_on_init_failure (ret : Int) (h : ret ≠ 0) :
    MutexAttr.defaultAttr ret = Unwrapped.panicked ∧
    Mutex.defaultMutex ret = Unwrapped.panicked ∧
    MutexAttr.new ret = Except.error ret ∧
    (Mutex.new none ret).1 = Except.error ret := by
  refine ⟨?_, ?_, ?_, ?_⟩ <;>
    simp [MutexAttr.defaultAttr, MutexAttr.new, Mutex.defaultMutex, Mutex.new,
      pthread_mutexattr_init, pthread_mutex_init, Errno.result, h, unwrapExcept,
      Except.map]

/-- Witness for C10 at the concrete native failure `ENOMEM` (resource
exhaustion, the typical initialization failure named by the spec). -/
theorem C10_default_panics_on_init_failure_witness :
    ENOMEM ≠ (0 : Int) ∧
    MutexAttr.defaultAttr ENOMEM = Unwrapped.panicked ∧
    Mutex.defaultMutex ENOMEM = Unwrapped.panicked ∧
    MutexAttr.new ENOMEM = Except.error ENOMEM ∧
    (Mutex.new none ENOMEM).1 = Except.error ENOMEM :=
  ⟨by decide, C10_default_panics_on_init_failure ENOMEM (by decide)⟩

end Pthread
